import Mathlib

/-!
Verification of the `MS5351MClockGenerator` driver from `src/SoC_name_here.py`
(lines 35-115).  The driver configures a three-output programmable clock chip
over an I2C bus: it tracks the last frequency programmed on each of the three
outputs, converts frequencies to 16-bit register values, and serializes each
register write as a three-byte payload sent to the device's slave address.

The embedding models the I2C transport as an oracle (`I2CBus`) deciding, for
each attempted bus write (numbered by position in the global attempt trace),
whether the transport succeeds or reports an error.  Driver methods take the
current driver state and the trace of attempted writes and return the new
trace, the driver state as it stands when the call returns or raises, and an
optional error.  Frequencies are modelled as natural numbers of Hz (the Python
source passes floats such as `50e6`, but every value involved is an exact
integer, so exact arithmetic is the faithful idealization); `int(x / 1e6)` on
a non-negative value is floor division by 10^6.
-/

/-- An I2C transport oracle: `ok n` tells whether the `n`-th attempted bus
write (counting every attempt, in order, across the driver's lifetime)
succeeds.  The Python source calls `self.i2c.write(...)`, which either returns
or raises a transport-level exception; the oracle decides which. -/
structure I2CBus where
  ok : Nat → Bool

/-- A transport-level error, identified by the index of the failed attempt.
Models the exception raised by `i2c.write` in the source. -/
structure TransportError where
  idx : Nat
deriving DecidableEq

/-- The errors a driver call can surface, one constructor per failure mode of
the source: `invalidChannel` is the `ValueError("Invalid output index. Must be
0, 1, or 2.")` raised at src line 73-74 (the spec's `InvalidChannelError`);
`transport e` is the transport exception propagating out of
`self.i2c.write` (which the spec surfaces as `RegisterWriteError` from a
standalone `set_frequency` and as `DeviceInitError` from bring-up). -/
inductive DriverError where
  | invalidChannel : DriverError
  | transport : TransportError → DriverError
deriving DecidableEq

/-- One attempted bus write: slave address plus payload bytes, as handed to
`self.i2c.write(self.slave_address, data)`. -/
structure I2CWrite where
  slave : Nat
  data : List Nat
deriving DecidableEq

/-- The mutable fields of an `MS5351MClockGenerator` object: the slave address
(src line 46) and the list of three output frequencies in Hz (src line 49). -/
structure DriverState where
  slave_address : Nat
  output_frequencies : List Nat
deriving DecidableEq

/-- Result of a driver call: the trace of attempted bus writes after the call,
the object's state when the call returns or raises, and the error surfaced
(`none` on success). -/
structure CallResult where
  log : List I2CWrite
  state : DriverState
  err : Option DriverError
deriving DecidableEq

/-- Source lines 86-103: `register_value = int(frequency / 1e6)`.  For a
non-negative exact frequency this is floor division by 1,000,000. -/
def _calculate_register_value (frequency : Nat) : Nat :=
  frequency / 1000000

/-- Source lines 105-115: build `data = [register, value & 0xFF,
(value >> 8) & 0xFF]` and issue one `i2c.write(slave_address, data)`.  The
attempt is recorded in the trace whether or not the transport succeeds; on
failure the transport error is returned.  (The `time.sleep(0.01)` settle delay
has no observable effect in this model.) -/
def _write_register (bus : I2CBus) (slave_address : Nat) (log : List I2CWrite)
    (register value : Nat) : List I2CWrite × Option TransportError :=
  let data : List Nat := [register, value &&& 0xFF, (value >>> 8) &&& 0xFF]
  if bus.ok log.length then
    (log ++ [⟨slave_address, data⟩], none)
  else
    (log ++ [⟨slave_address, data⟩], some ⟨log.length⟩)

/-- Source lines 65-84: validate the output index (raising for anything
outside `[0, 1, 2]`), compute the register value and the register address
`0x10 + output_index * 2`, perform one register write, and only then update
`self.output_frequencies[output_index]`.  If the write raises, the state
update is never reached. -/
def set_frequency (bus : I2CBus) (st : DriverState) (log : List I2CWrite)
    (output_index : Int) (frequency : Nat) : CallResult :=
  if output_index ∉ ([0, 1, 2] : List Int) then
    ⟨log, st, some .invalidChannel⟩
  else
    let register_value := _calculate_register_value frequency
    let register_address := 0x10 + output_index.toNat * 2
    match _write_register bus st.slave_address log register_address register_value with
    | (log1, some e) => ⟨log1, st, some (.transport e)⟩
    | (log1, none) =>
      ⟨log1, ⟨st.slave_address, st.output_frequencies.set output_index.toNat frequency⟩, none⟩

/-- Source lines 52-63: write `0x01` to the reset register `0x00`, then set
channels 0, 1, 2 to 50 MHz, 100 MHz, 200 MHz in that order.  Any raised
exception propagates immediately, abandoning the remaining steps. -/
def setup_clock_generator (bus : I2CBus) (st : DriverState) (log : List I2CWrite) :
    CallResult :=
  match _write_register bus st.slave_address log 0x00 0x01 with
  | (log1, some e) => ⟨log1, st, some (.transport e)⟩
  | (log1, none) =>
    let r1 := set_frequency bus st log1 0 50000000
    match r1.err with
    | some _ => r1
    | none =>
      let r2 := set_frequency bus r1.state r1.log 1 100000000
      match r2.err with
      | some _ => r2
      | none => set_frequency bus r2.state r2.log 2 200000000

/-- Source lines 45-49: the object state right before bring-up — the slave
address is stored and the three output frequencies are initialized to 0. -/
def initialState (slave_address : Nat) : DriverState :=
  ⟨slave_address, [0, 0, 0]⟩

/-- Source lines 36-50: `__init__` stores the slave address, initializes the
three output frequencies to 0, and runs `setup_clock_generator`. -/
def mkClockGenerator (bus : I2CBus) (slave_address : Nat) : CallResult :=
  setup_clock_generator bus (initialState slave_address) []

/-- A sequence of driver calls made after construction: each element is one
`set_frequency(output_index, frequency)` call. -/
inductive DriverOp where
  | setFreq : Int → Nat → DriverOp

/-- Run a sequence of `set_frequency` calls against one driver object.  A call
that raises leaves the object's state as `set_frequency` left it and the
caller carries on with the same object, as a Python caller catching the
exception would. -/
def runOps (bus : I2CBus) (st : DriverState) (log : List I2CWrite) :
    List DriverOp → DriverState × List I2CWrite
  | [] => (st, log)
  | DriverOp.setFreq i f :: rest =>
    let r := set_frequency bus st log i f
    runOps bus r.state r.log rest

/-- The default-successful frequency table after the first `k` bring-up
writes: write 0 is the reset, writes 1, 2, 3 store the three default
frequencies as they succeed. -/
def bringupPartialFrequencies (k : Nat) : List Nat :=
  [if 1 < k then 50000000 else 0,
   if 2 < k then 100000000 else 0,
   if 3 < k then 200000000 else 0]

/-- The frequency the driver last wrote successfully to channel `c`, computed
from the call sequence alone: starting from the stored value `cur` with `wc`
bus writes already attempted, a valid `set_frequency` call consumes one write
attempt, and updates channel `c` only when its write succeeds; an invalid call
consumes nothing. -/
def lastGoodFrequency (bus : I2CBus) (c : Nat) : Nat → Nat → List DriverOp → Nat
  | cur, _, [] => cur
  | cur, wc, DriverOp.setFreq i f :: rest =>
    if i ∈ ([0, 1, 2] : List Int) then
      if bus.ok wc then
        lastGoodFrequency bus c (if i.toNat = c then f else cur) (wc + 1) rest
      else
        lastGoodFrequency bus c cur (wc + 1) rest
    else
      lastGoodFrequency bus c cur wc rest

theorem land_255_eq_mod (v : Nat) : v &&& 255 = v % 256 := by
  have h := Nat.and_pow_two_sub_one_eq_mod v 8
  norm_num at h
  exact h

theorem shiftRight_8_eq_div (v : Nat) : v >>> 8 = v / 256 := by
  have h := Nat.shiftRight_eq_div_pow v 8
  norm_num at h
  exact h

/-- C2: for every channel value outside `{0,1,2}` and every frequency,
`set_frequency` fails with the invalid-channel error (the `ValueError` of src
line 73-74, the spec's `InvalidChannelError`), issues zero bus writes (the
attempt trace is unchanged), and leaves the driver state unchanged. -/
theorem set_frequency_invalid_channel_spec (bus : I2CBus) (st : DriverState)
    (log : List I2CWrite) (output_index : Int) (frequency : Nat)
    (h : output_index ∉ ([0, 1, 2] : List Int)) :
    set_frequency bus st log output_index frequency =
      ⟨log, st, some DriverError.invalidChannel⟩ := by
  simp [set_frequency, h]

/-- Witness for `set_frequency_invalid_channel_spec` at channel 3. -/
theorem set_frequency_invalid_channel_spec_witness :
    set_frequency ⟨fun _ => true⟩ ⟨0x60, [0, 0, 0]⟩ [] 3 1000 =
      ⟨[], ⟨0x60, [0, 0, 0]⟩, some DriverError.invalidChannel⟩ :=
  set_frequency_invalid_channel_spec ⟨fun _ => true⟩ ⟨0x60, [0, 0, 0]⟩ [] 3 1000 (by decide)

/-- C6: the default register-calculation strategy is floor division of the
frequency by 1,000,000, with the spec's three sample points. -/
theorem calculate_register_value_floor_spec :
    (∀ f : Nat, _calculate_register_value f = ⌊(f : ℚ) / 1000000⌋₊) ∧
    _calculate_register_value 50000000 = 50 ∧
    _calculate_register_value 27000000 = 27 ∧
    _calculate_register_value 999999 = 0 := by
  refine ⟨fun f => ?_, by decide, by decide, by decide⟩
  rw [show (1000000 : ℚ) = ((1000000 : Nat) : ℚ) by norm_num, Nat.floor_div_eq_div]
  rfl

/-- C7: every register write appends exactly one transaction to the attempt
trace, addressed to the given slave address, whose payload is the 3 bytes
`[address, value mod 256, (value div 256) mod 256]` (the source's
`value & 0xFF` and `(value >> 8) & 0xFF`), and writing value 300 to address
0x10 produces the payload `[0x10, 0x2C, 0x01]`. -/
theorem write_register_payload_spec :
    (∀ (bus : I2CBus) (sa : Nat) (log : List I2CWrite) (reg v : Nat),
      (_write_register bus sa log reg v).1 =
        log ++ [⟨sa, [reg, v % 256, v / 256 % 256]⟩]) ∧
    (_write_register ⟨fun _ => true⟩ 0x60 [] 0x10 300).1 =
      [⟨0x60, [0x10, 0x2C, 0x01]⟩] := by
  constructor
  · intro bus sa log reg v
    unfold _write_register
    split <;> simp [land_255_eq_mod, shiftRight_8_eq_div]
  · decide

/-- C3: construction stores slave address and all-zero frequencies first, and
when every transport write succeeds, bring-up issues exactly 4 writes in fixed
order — reset register 0x00 with value 0x01, then the channel registers 0x10,
0x12, 0x14 with the register values for 50 MHz, 100 MHz, 200 MHz — leaving the
three stored frequencies at 50e6, 100e6, 200e6 Hz. -/
theorem construction_bringup_spec (bus : I2CBus) (sa : Nat)
    (h0 : bus.ok 0 = true) (h1 : bus.ok 1 = true) (h2 : bus.ok 2 = true)
    (h3 : bus.ok 3 = true) :
    (initialState sa).output_frequencies = [0, 0, 0] ∧
    mkClockGenerator bus sa =
      ⟨[⟨sa, [0x00, 0x01, 0x00]⟩, ⟨sa, [0x10, 50, 0]⟩,
        ⟨sa, [0x12, 100, 0]⟩, ⟨sa, [0x14, 200, 0]⟩],
       ⟨sa, [50000000, 100000000, 200000000]⟩, none⟩ := by
  refine ⟨rfl, ?_⟩
  simp [mkClockGenerator, setup_clock_generator, set_frequency, _write_register,
        _calculate_register_value, initialState, h0, h1, h2, h3,
        land_255_eq_mod, shiftRight_8_eq_div]

/-- Witness for `construction_bringup_spec` on an always-succeeding bus. -/
theorem construction_bringup_spec_witness :
    (initialState 0x60).output_frequencies = [0, 0, 0] ∧
    mkClockGenerator ⟨fun _ => true⟩ 0x60 =
      ⟨[⟨0x60, [0x00, 0x01, 0x00]⟩, ⟨0x60, [0x10, 50, 0]⟩,
        ⟨0x60, [0x12, 100, 0]⟩, ⟨0x60, [0x14, 200, 0]⟩],
       ⟨0x60, [50000000, 100000000, 200000000]⟩, none⟩ :=
  construction_bringup_spec ⟨fun _ => true⟩ 0x60 rfl rfl rfl rfl

/-- C1: a successful `set_frequency` on a valid channel appends exactly one
register write to the trace, addressed to register `0x10 + 2 * channel`, and
records the requested frequency (not the register-quantized value) for that
channel; a later successful call on the same channel overwrites it. -/
theorem set_frequency_success_spec (bus : I2CBus) (st : DriverState)
    (log : List I2CWrite) (c : Int) (f f2 : Nat)
    (hc : c ∈ ([0, 1, 2] : List Int))
    (hok : bus.ok log.length = true)
    (hok2 : bus.ok (log.length + 1) = true)
    (hlen : st.output_frequencies.length = 3) :
    (set_frequency bus st log c f).err = none ∧
    (set_frequency bus st log c f).log =
      log ++ [⟨st.slave_address,
        [0x10 + c.toNat * 2, _calculate_register_value f % 256,
         _calculate_register_value f / 256 % 256]⟩] ∧
    (set_frequency bus st log c f).state.output_frequencies.getD c.toNat 0 = f ∧
    (set_frequency bus (set_frequency bus st log c f).state
        (set_frequency bus st log c f).log c f2).state.output_frequencies.getD c.toNat 0
      = f2 := by
  obtain ⟨sa, freqs⟩ := st
  obtain ⟨a, b, d, rfl⟩ := List.length_eq_three.mp hlen
  fin_cases hc <;>
    simp [set_frequency, _write_register, hok, hok2, land_255_eq_mod, shiftRight_8_eq_div]

/-- Witness for `set_frequency_success_spec` on channel 1. -/
theorem set_frequency_success_spec_witness :
    (set_frequency ⟨fun _ => true⟩ ⟨0x60, [7, 8, 9]⟩ [] 1 123456789).err = none ∧
    (set_frequency ⟨fun _ => true⟩ ⟨0x60, [7, 8, 9]⟩ [] 1 123456789).log =
      [] ++ [⟨0x60, [0x10 + (1 : Int).toNat * 2, _calculate_register_value 123456789 % 256,
        _calculate_register_value 123456789 / 256 % 256]⟩] ∧
    (set_frequency ⟨fun _ => true⟩ ⟨0x60, [7, 8, 9]⟩ []
      1 123456789).state.output_frequencies.getD (1 : Int).toNat 0 = 123456789 ∧
    (set_frequency ⟨fun _ => true⟩
        (set_frequency ⟨fun _ => true⟩ ⟨0x60, [7, 8, 9]⟩ [] 1 123456789).state
        (set_frequency ⟨fun _ => true⟩ ⟨0x60, [7, 8, 9]⟩ [] 1 123456789).log
        1 55000000).state.output_frequencies.getD (1 : Int).toNat 0 = 55000000 :=
  set_frequency_success_spec ⟨fun _ => true⟩ ⟨0x60, [7, 8, 9]⟩ [] 1 123456789 55000000
    (by decide) rfl rfl rfl

/-- C4: when the transport write of a valid `set_frequency` call fails, the
call surfaces the transport error (the bus exception propagating out of src
line 81, which the spec labels `RegisterWriteError`), the driver state —
including the previously recorded frequency for that channel — is exactly as
before, and the one failed write is the only attempted bus activity. -/
theorem set_frequency_write_failure_atomic (bus : I2CBus) (st : DriverState)
    (log : List I2CWrite) (c : Int) (f : Nat)
    (hc : c ∈ ([0, 1, 2] : List Int))
    (hfail : bus.ok log.length = false) :
    (set_frequency bus st log c f).err =
      some (DriverError.transport ⟨log.length⟩) ∧
    (set_frequency bus st log c f).state = st ∧
    (set_frequency bus st log c f).log.length = log.length + 1 := by
  fin_cases hc <;> simp [set_frequency, _write_register, hfail]

/-- Witness for `set_frequency_write_failure_atomic` on an always-failing
bus. -/
theorem set_frequency_write_failure_atomic_witness :
    (set_frequency ⟨fun _ => false⟩ ⟨0x60, [50000000, 0, 0]⟩ [] 0 75000000).err =
      some (DriverError.transport ⟨List.length ([] : List I2CWrite)⟩) ∧
    (set_frequency ⟨fun _ => false⟩ ⟨0x60, [50000000, 0, 0]⟩ [] 0 75000000).state =
      ⟨0x60, [50000000, 0, 0]⟩ ∧
    (set_frequency ⟨fun _ => false⟩ ⟨0x60, [50000000, 0, 0]⟩ [] 0 75000000).log.length =
      List.length ([] : List I2CWrite) + 1 :=
  set_frequency_write_failure_atomic ⟨fun _ => false⟩ ⟨0x60, [50000000, 0, 0]⟩ [] 0 75000000
    (by decide) rfl

/-- C10: a `set_frequency` call on a valid channel — whether it succeeds or
its transport write fails — never changes the slave address or the stored
frequency of any other index. -/
theorem set_frequency_frame_spec (bus : I2CBus) (st : DriverState)
    (log : List I2CWrite) (c : Int) (f : Nat) (j : Nat)
    (hc : c ∈ ([0, 1, 2] : List Int)) (hj : j ≠ c.toNat) :
    (set_frequency bus st log c f).state.slave_address = st.slave_address ∧
    (set_frequency bus st log c f).state.output_frequencies.getD j 0 =
      st.output_frequencies.getD j 0 := by
  have hj' : c.toNat ≠ j := Ne.symm hj
  by_cases hok : bus.ok log.length <;>
    simp [set_frequency, _write_register, hc, hok, List.getD_eq_getElem?_getD,
      List.getElem?_set_ne hj']

/-- Witness for `set_frequency_frame_spec`: writing channel 0 leaves channel 2
alone. -/
theorem set_frequency_frame_spec_witness :
    (set_frequency ⟨fun _ => true⟩ ⟨0x60, [1, 2, 3]⟩ [] 0 99000000).state.slave_address =
      (⟨0x60, [1, 2, 3]⟩ : DriverState).slave_address ∧
    (set_frequency ⟨fun _ => true⟩ ⟨0x60, [1, 2, 3]⟩ [] 0 99000000).state.output_frequencies.getD 2 0 =
      (⟨0x60, [1, 2, 3]⟩ : DriverState).output_frequencies.getD 2 0 :=
  set_frequency_frame_spec ⟨fun _ => true⟩ ⟨0x60, [1, 2, 3]⟩ [] 0 99000000 2
    (by decide) (by decide)

/-- C5: if the first failing transport write of bring-up is write `k` (0 is
the reset, 1-3 the three channel writes), construction fails with the
transport error propagating out of bring-up (the spec's `DeviceInitError`
case), exactly `k + 1` writes were attempted — the failing one and nothing
after it — and the frequencies stored by the earlier successful steps are
kept as-is, with no rollback. -/
theorem bringup_failure_spec (bus : I2CBus) (sa : Nat) (k : Nat) (hk : k < 4)
    (hbefore : ∀ j, j < k → bus.ok j = true) (hfail : bus.ok k = false) :
    (mkClockGenerator bus sa).err = some (DriverError.transport ⟨k⟩) ∧
    (mkClockGenerator bus sa).log.length = k + 1 ∧
    (mkClockGenerator bus sa).state.output_frequencies = bringupPartialFrequencies k := by
  interval_cases k
  · simp [mkClockGenerator, setup_clock_generator, set_frequency, _write_register,
      _calculate_register_value, initialState, bringupPartialFrequencies, hfail]
  · have h0 := hbefore 0 (by norm_num)
    simp [mkClockGenerator, setup_clock_generator, set_frequency, _write_register,
      _calculate_register_value, initialState, bringupPartialFrequencies, h0, hfail]
  · have h0 := hbefore 0 (by norm_num)
    have h1 := hbefore 1 (by norm_num)
    simp [mkClockGenerator, setup_clock_generator, set_frequency, _write_register,
      _calculate_register_value, initialState, bringupPartialFrequencies, h0, h1, hfail]
  · have h0 := hbefore 0 (by norm_num)
    have h1 := hbefore 1 (by norm_num)
    have h2 := hbefore 2 (by norm_num)
    simp [mkClockGenerator, setup_clock_generator, set_frequency, _write_register,
      _calculate_register_value, initialState, bringupPartialFrequencies, h0, h1, h2, hfail]

/-- Witness for `bringup_failure_spec`: the transport fails on the 2nd
bring-up write, so exactly 2 writes are attempted and no frequency was
stored yet. -/
theorem bringup_failure_spec_witness :
    (mkClockGenerator ⟨fun n => n != 1⟩ 0x60).err = some (DriverError.transport ⟨1⟩) ∧
    (mkClockGenerator ⟨fun n => n != 1⟩ 0x60).log.length = 1 + 1 ∧
    (mkClockGenerator ⟨fun n => n != 1⟩ 0x60).state.output_frequencies =
      bringupPartialFrequencies 1 :=
  bringup_failure_spec ⟨fun n => n != 1⟩ 0x60 1 (by decide) (by decide) (by decide)

/-- C8 counterexample: after a successful bring-up, a `set_frequency(0, 75e6)`
call whose transport write fails leaves channel 0 recorded at 50e6 Hz, even
though the last write the driver attempted for channel 0 (the final trace
entry, register 0x10, value 75) was the 75 MHz request — the in-memory state
does not reflect the last attempted write. -/
theorem state_vs_attempted_counterexample :
    (set_frequency ⟨fun n => n != 4⟩ (mkClockGenerator ⟨fun n => n != 4⟩ 0x60).state
        (mkClockGenerator ⟨fun n => n != 4⟩ 0x60).log 0 75000000).log.getLast? =
      some ⟨0x60, [0x10, 75, 0]⟩ ∧
    (set_frequency ⟨fun n => n != 4⟩ (mkClockGenerator ⟨fun n => n != 4⟩ 0x60).state
        (mkClockGenerator ⟨fun n => n != 4⟩ 0x60).log 0 75000000).err ≠ none ∧
    (set_frequency ⟨fun n => n != 4⟩ (mkClockGenerator ⟨fun n => n != 4⟩ 0x60).state
        (mkClockGenerator ⟨fun n => n != 4⟩ 0x60).log 0 75000000).state.output_frequencies.getD 0 0
      = 50000000 ∧
    (set_frequency ⟨fun n => n != 4⟩ (mkClockGenerator ⟨fun n => n != 4⟩ 0x60).state
        (mkClockGenerator ⟨fun n => n != 4⟩ 0x60).log 0 75000000).state.output_frequencies.getD 0 0
      ≠ 75000000 := by
  decide

/-- C8 amended: after any sequence of `set_frequency` calls, the stored
frequency of each channel equals the last value whose transport write
SUCCEEDED for that channel (falling back to the starting value when none
did), not the last value merely attempted. -/
theorem state_last_successful_write (bus : I2CBus) (ops : List DriverOp)
    (st : DriverState) (log : List I2CWrite) (c : Nat) (hc : c < 3)
    (hlen : st.output_frequencies.length = 3) :
    (runOps bus st log ops).1.output_frequencies.getD c 0 =
      lastGoodFrequency bus c (st.output_frequencies.getD c 0) log.length ops := by
  induction ops generalizing st log with
  | nil => simp [runOps, lastGoodFrequency]
  | cons op rest ih =>
    obtain ⟨i, f⟩ := op
    simp only [runOps, lastGoodFrequency]
    by_cases hmem : i ∈ ([0, 1, 2] : List Int)
    · rw [if_pos hmem]
      by_cases hok : bus.ok log.length = true
      · rw [if_pos hok]
        have hrs : (set_frequency bus st log i f).state =
            ⟨st.slave_address, st.output_frequencies.set i.toNat f⟩ := by
          simp [set_frequency, _write_register, hmem, hok]
        have hrl : (set_frequency bus st log i f).log.length = log.length + 1 := by
          simp [set_frequency, _write_register, hmem, hok]
        have hlen' : (set_frequency bus st log i f).state.output_frequencies.length = 3 := by
          rw [hrs]
          simpa using hlen
        rw [ih _ _ hlen', hrs, hrl]
        by_cases hic : i.toNat = c
        · subst hic
          simp [List.getD_eq_getElem?_getD,
            List.getElem?_set_self (show i.toNat < st.output_frequencies.length by omega)]
        · simp [hic, List.getD_eq_getElem?_getD, List.getElem?_set_ne hic]
      · rw [if_neg hok]
        have hokf : bus.ok log.length = false := by
          exact Bool.not_eq_true _ ▸ hok
        have hrs : (set_frequency bus st log i f).state = st := by
          simp [set_frequency, _write_register, hmem, hokf]
        have hrl : (set_frequency bus st log i f).log.length = log.length + 1 := by
          simp [set_frequency, _write_register, hmem, hokf]
        have hlen' : (set_frequency bus st log i f).state.output_frequencies.length = 3 := by
          rw [hrs]
          exact hlen
        rw [ih _ _ hlen', hrs, hrl]
    · rw [if_neg hmem]
      have hr : set_frequency bus st log i f = ⟨log, st, some .invalidChannel⟩ := by
        simp [set_frequency, hmem]
      rw [hr]
      exact ih st log hlen

/-- Witness for `state_last_successful_write`: a successful write, a failed
write, and an invalid call on channel 0. -/
theorem state_last_successful_write_witness :
    (runOps ⟨fun n => n != 1⟩ ⟨0x60, [0, 0, 0]⟩ []
        [DriverOp.setFreq 0 111000000, DriverOp.setFreq 0 222000000,
         DriverOp.setFreq 5 7]).1.output_frequencies.getD 0 0 =
      lastGoodFrequency ⟨fun n => n != 1⟩ 0
        ((⟨0x60, [0, 0, 0]⟩ : DriverState).output_frequencies.getD 0 0)
        (List.length ([] : List I2CWrite))
        [DriverOp.setFreq 0 111000000, DriverOp.setFreq 0 222000000,
         DriverOp.setFreq 5 7] :=
  state_last_successful_write ⟨fun n => n != 1⟩ _ ⟨0x60, [0, 0, 0]⟩ [] 0
    (by decide) (by decide)

/-- C9 counterexample: `set_frequency` accepts the frequency 66 GHz (the call
succeeds), yet the register value it passes to the write primitive is 66000,
outside the 16-bit range 0..65535 — the computed value is not clamped. -/
theorem register_value_range_counterexample :
    _calculate_register_value 66000000000 = 66000 ∧
    ¬ _calculate_register_value 66000000000 ≤ 65535 ∧
    (set_frequency ⟨fun _ => true⟩ ⟨0x60, [0, 0, 0]⟩ [] 0 66000000000).err = none := by
  decide

/-- C9 amended: the register value passed to the write primitive is the
unclamped floor `frequency_hz / 1000000`; it lies in the 16-bit range 0..65535
exactly when `frequency_hz < 65_536_000_000`, and the two value bytes the
primitive serializes encode the value reduced modulo 2^16 (truncation, not
clamping). -/
theorem register_value_unclamped_spec :
    (∀ f : Nat, _calculate_register_value f ≤ 65535 ↔ f < 65536000000) ∧
    (∀ v : Nat, (v &&& 0xFF) + 256 * ((v >>> 8) &&& 0xFF) = v % 65536) := by
  constructor
  · intro f
    unfold _calculate_register_value
    omega
  · intro v
    rw [land_255_eq_mod, shiftRight_8_eq_div, land_255_eq_mod]
    omega
